import Mathlib

/-!
Verification of the SF dispatch-call monitor (`monitor.py`).

The Python source is shallowly embedded below.  External effects (the
metadata HTTP GET, the record-fetch HTTP GET, and the per-call push
delivery) are modelled as oracles supplied in an `Env` value; the
persisted JSON state file is modelled as an `MState` value threaded
explicitly through `check_and_notify`.
-/

namespace Monitor

/-- A fetched dispatch call record.  Fields mirror the JSON keys read by
`monitor.py`; `none` models an absent key and `some ""` an empty string
value (Python treats both as falsy in `x or y` expressions). -/
structure Call where
  id : Option String
  cad_number : Option String
  received_datetime : Option String
  call_type_original_desc : Option String
  intersection_name : Option String
  analysis_neighborhood : Option String
  agency : Option String
  sensitive_call : Bool
deriving DecidableEq, Repr

/-- Python `v or d` for an optional string `v` and a string default `d`:
the default is used when the value is absent or the empty string. -/
def pyOr (v : Option String) (d : String) : String :=
  match v with
  | none => d
  | some s => if s = "" then d else s

/-- Python `a or b` where both operands are optional strings. -/
def pyOrO (a b : Option String) : Option String :=
  match a with
  | none => b
  | some s => if s = "" then b else some s

/-- Identity of a record: `call.get("id") or call.get("cad_number")`
(lines 143, 151 and 167 of `monitor.py`). -/
def callId (c : Call) : Option String := pyOrO c.id c.cad_number

/-- The wall-clock fields of a parsed `datetime` value (any parsed
timezone offset is not used by the `strftime` format in the source, so
it is validated but not stored). -/
structure PyDateTime where
  year : Nat
  month : Nat
  day : Nat
  hour : Nat
  minute : Nat
  second : Nat
deriving DecidableEq, Repr

/-- Read exactly `n` decimal digits, returning their value and the rest. -/
def readDigitsAux : Nat → Nat → List Char → Option (Nat × List Char)
  | 0, acc, cs => some (acc, cs)
  | _ + 1, _, [] => none
  | n + 1, acc, c :: cs =>
    if c.isDigit then readDigitsAux n (acc * 10 + (c.toNat - 48)) cs else none

/-- An optional fractional-seconds suffix: nothing, or a dot followed by
exactly 6 or exactly 3 digits (the two widths `datetime.fromisoformat`
accepts).  The value is irrelevant to the output format used by the
source, so only the remaining input is returned. -/
def parseFrac : List Char → Option (List Char)
  | '.' :: rest =>
    (match readDigitsAux 6 0 rest with
     | some (_, rest2) => some rest2
     | none =>
       match readDigitsAux 3 0 rest with
       | some (_, rest2) => some rest2
       | none => none)
  | cs => some cs

/-- The time-of-day part `HH[:MM[:SS[.fff[fff]]]]`. -/
def parseTimePart (cs : List Char) : Option (Nat × Nat × Nat × List Char) :=
  match readDigitsAux 2 0 cs with
  | none => none
  | some (h, rest) =>
    match rest with
    | ':' :: rest2 =>
      (match readDigitsAux 2 0 rest2 with
       | none => none
       | some (m, rest3) =>
         match rest3 with
         | ':' :: rest4 =>
           (match readDigitsAux 2 0 rest4 with
            | none => none
            | some (s, rest5) =>
              match parseFrac rest5 with
              | none => none
              | some rest6 => some (h, m, s, rest6))
         | _ => some (h, m, 0, rest3))
    | _ => some (h, 0, 0, rest)

/-- Optional `:SS[.ffffff]` tail of a timezone offset. -/
def offSeconds : List Char → Option Nat
  | [] => some 0
  | ':' :: r =>
    (match readDigitsAux 2 0 r with
     | none => none
     | some (os, r2) =>
       match parseFrac r2 with
       | some [] => some os
       | _ => none)
  | _ => none

/-- The rest of the input after the time of day must be empty or a
timezone offset `[+-]HH:MM[:SS[.ffffff]]` denoting strictly less than
24 hours (the bound `timezone` enforces). -/
def parseOffsetEnd : List Char → Bool
  | [] => true
  | c :: rest =>
    if c = '+' || c = '-' then
      match readDigitsAux 2 0 rest with
      | none => false
      | some (oh, r1) =>
        (match r1 with
         | ':' :: r2 =>
           (match readDigitsAux 2 0 r2 with
            | none => false
            | some (om, r3) =>
              match offSeconds r3 with
              | none => false
              | some os => oh * 3600 + om * 60 + os < 86400)
         | _ => false)
    else false

def isLeap (y : Nat) : Bool := (y % 4 == 0 && y % 100 != 0) || y % 400 == 0

def daysInMonth (y m : Nat) : Nat :=
  if m = 2 then (if isLeap y then 29 else 28)
  else if m = 4 || m = 6 || m = 9 || m = 11 then 30
  else 31

/-- The range checks performed by the `datetime` constructor. -/
def validDateTime (y mo d h mi s : Nat) : Bool :=
  1 ≤ y && y ≤ 9999 && 1 ≤ mo && mo ≤ 12 && 1 ≤ d && d ≤ daysInMonth y mo &&
  h ≤ 23 && mi ≤ 59 && s ≤ 59

/-- `datetime.fromisoformat`: `YYYY-MM-DD` optionally followed by a
one-character separator, a time of day, and a timezone offset.  `none`
models the `ValueError` the Python call raises on malformed input. -/
def fromisoformat (str : String) : Option PyDateTime :=
  match readDigitsAux 4 0 str.toList with
  | none => none
  | some (y, cs1) =>
    match cs1 with
    | '-' :: cs2 =>
      (match readDigitsAux 2 0 cs2 with
       | none => none
       | some (mo, cs3) =>
         match cs3 with
         | '-' :: cs4 =>
           (match readDigitsAux 2 0 cs4 with
            | none => none
            | some (d, cs5) =>
              match cs5 with
              | [] => if validDateTime y mo d 0 0 0 then some ⟨y, mo, d, 0, 0, 0⟩ else none
              | _ :: cs6 =>
                match parseTimePart cs6 with
                | none => none
                | some (h, mi, s, cs7) =>
                  if parseOffsetEnd cs7 && validDateTime y mo d h mi s then
                    some ⟨y, mo, d, h, mi, s⟩
                  else none)
         | _ => none)
    | _ => none

/-- Two-digit zero-padded field (`%M`). -/
def pad2 (n : Nat) : String := if n < 10 then "0" ++ toString n else toString n

/-- Twelve-hour clock hour without padding (`%-I`). -/
def hour12 (h : Nat) : Nat := if h % 12 = 0 then 12 else h % 12

/-- `%p` field. -/
def ampm (h : Nat) : String := if h < 12 then "AM" else "PM"

/-- `dt.strftime` of the fixed format string in the source, which
prints month, day and hour without zero padding. -/
def strftimeOut (dt : PyDateTime) : String :=
  toString dt.month ++ "/" ++ toString dt.day ++ "/" ++ toString dt.year ++ " " ++
  toString (hour12 dt.hour) ++ ":" ++ pad2 dt.minute ++ " " ++ ampm dt.hour

/-- Character-level body of `replaceZ`; the pattern is the single
character `Z`, so per-character replacement is exact. -/
def replaceZList : List Char → List Char
  | [] => []
  | c :: cs =>
    if c = 'Z' then '+' :: '0' :: '0' :: ':' :: '0' :: '0' :: replaceZList cs
    else c :: replaceZList cs

/-- The source expression `received.replace("Z", "+00:00")`. -/
def replaceZ (s : String) : String := ⟨replaceZList s.data⟩

/-- The `received_formatted` local of `format_call`: parse and reformat
the timestamp, pass the raw string through when parsing fails, and use
the literal fallback when the field is missing or empty. -/
def received_formatted (call : Call) : String :=
  let received := call.received_datetime.getD ""
  if received = "" then "Unknown time"
  else
    match fromisoformat (replaceZ received) with
    | some dt => strftimeOut dt
    | none => received

/-- The list of output lines built by `format_call` (lines 74-81 of the
source): Time, Type, Location, an optional Neighborhood line, Agency. -/
def format_lines (call : Call) : List String :=
  let call_type := pyOr call.call_type_original_desc "Unknown"
  let intersection :=
    if call.sensitive_call then "[Sensitive - location suppressed]"
    else pyOr call.intersection_name "Unknown location"
  let neighborhood := pyOr call.analysis_neighborhood ""
  ["Time: " ++ received_formatted call, "Type: " ++ call_type, "Location: " ++ intersection]
    ++ (if neighborhood ≠ "" ∧ call.sensitive_call = false then
          ["Neighborhood: " ++ neighborhood]
        else [])
    ++ ["Agency: " ++ pyOr call.agency "Unknown agency"]

/-- `format_call`: the notification body, the lines joined by newlines. -/
def format_call (call : Call) : String := String.intercalate "\n" (format_lines call)

/-- Outcome of one `send_notification` attempt as observed by
`send_notification_with_backoff`: a 2xx response, an HTTP 429, or any
other error (a non-429 `HTTPError` or another exception). -/
inductive SendOutcome where
  | ok
  | rateLimited
  | otherError
deriving DecidableEq, Repr

/-- Result of `send_notification_with_backoff`: the returned boolean,
the number of delivery attempts made, and the backoff sleeps performed
(in seconds, in order). -/
structure BackoffOut where
  success : Bool
  attempts : Nat
  sleeps : List Nat
deriving DecidableEq, Repr

/-- The `for attempt in range(max_retries)` loop, recursing over the
list of remaining attempt indices.  `outcome` is the oracle giving the
result of each attempt; `backoff` is the current backoff in seconds.
A 429 on the last remaining attempt returns failure with no further
sleep; otherwise a 429 sleeps `backoff` seconds and doubles it, capped
at 64. -/
def send_loop (outcome : Nat → SendOutcome) : Nat → List Nat → BackoffOut
  | _, [] => ⟨false, 0, []⟩
  | _, [attempt] =>
    (match outcome attempt with
     | SendOutcome.ok => ⟨true, 1, []⟩
     | SendOutcome.otherError => ⟨false, 1, []⟩
     | SendOutcome.rateLimited => ⟨false, 1, []⟩)
  | backoff, attempt :: r :: rs =>
    match outcome attempt with
    | SendOutcome.ok => ⟨true, 1, []⟩
    | SendOutcome.otherError => ⟨false, 1, []⟩
    | SendOutcome.rateLimited =>
      let out := send_loop outcome (min (backoff * 2) 64) (r :: rs)
      ⟨out.success, out.attempts + 1, backoff :: out.sleeps⟩

/-- `send_notification_with_backoff` with its default `max_retries=5`
and initial backoff of 2 seconds. -/
def send_notification_with_backoff (outcome : Nat → SendOutcome) : BackoffOut :=
  send_loop outcome 2 (List.range 5)

/-- The backoff values the loop can sleep through, starting from a
given backoff, for a given list of remaining attempt indices (no sleep
happens on the final attempt). -/
def sleepChain : Nat → List Nat → List Nat
  | _, [] => []
  | _, [_] => []
  | b, _ :: r :: rs => b :: sleepChain (min (b * 2) 64) (r :: rs)

/-- The persisted state file `.last_state.json`. -/
structure MState where
  seen_ids : List String
  rows_updated_at : Option String
deriving DecidableEq, Repr

/-- The external world of one run: the metadata query result, the
record-fetch result (`Except.error` models a raised request error, for
the metadata query also a missing 2xx body), and the boolean result of
`send_notification_with_backoff` for the i-th delivery attempted this
run. -/
structure Env where
  metadata : Except Unit (Option String)
  fetch : Except Unit (List Call)
  deliver : Nat → Bool

/-- Result of the notify loop over `new_calls`: the `sent_call_ids`
list accumulated by the source, the number of calls for which delivery
was attempted, and the calls whose delivery was confirmed. -/
structure LoopOut where
  sent_call_ids : List String
  attempted : Nat
  succeeded : List Call
deriving DecidableEq, Repr

/-- The `if call_id:` guard of lines 167-169: the identity is appended
only when it is a non-empty string. -/
def truthyId (c : Call) : List String :=
  match callId c with
  | some s => if s = "" then [] else [s]
  | none => []

/-- The `for i, call in enumerate(new_calls)` loop of lines 158-176:
on success record the identity (when truthy) and continue; on failure
stop, leaving the remaining calls unprocessed. -/
def notifyLoop (deliver : Nat → Bool) : Nat → List Call → LoopOut
  | _, [] => ⟨[], 0, []⟩
  | i, c :: rest =>
    if deliver i then
      let out := notifyLoop deliver (i + 1) rest
      ⟨truthyId c ++ out.sent_call_ids, out.attempted + 1, c :: out.succeeded⟩
    else ⟨[], 1, []⟩

/-- The membership test `(c.get("id") or c.get("cad_number")) not in
seen_ids`, negated: a record with no identity is never in the seen-set
(the persisted `seen_ids` are strings). -/
def idInSeen (seen : List String) (c : Call) : Bool :=
  match callId c with
  | some s => seen.contains s
  | none => false

/-- Lines 146-151: on a first run (empty seen-set) no calls are treated
as new; otherwise the fetched calls whose identity is not yet seen. -/
def newCalls (seen : List String) (calls : List Call) : List Call :=
  if seen = [] then [] else calls.filter (fun c => ! idInSeen seen c)

/-- Observable result of a completed `check_and_notify` run: whether
the record fetch was performed, the notify-loop result, the state as of
the end of the run, and whether `save_state` was called. -/
structure RunOut where
  fetched : Bool
  loop : LoopOut
  finalState : MState
  saved : Bool
deriving DecidableEq, Repr

/-- `check_and_notify` (lines 129-188).  `Except.error` models an
exception propagating out of the metadata query or the record fetch;
in that case no state is written.  In the short-circuit branch (token
unchanged and seen-set non-empty) the function returns before fetching
and before `save_state`. -/
def check_and_notify (env : Env) (state : MState) : Except Unit RunOut :=
  match env.metadata with
  | Except.error e => Except.error e
  | Except.ok current_updated =>
    if current_updated = state.rows_updated_at ∧ state.seen_ids ≠ [] then
      Except.ok ⟨false, ⟨[], 0, []⟩, state, false⟩
    else
      match env.fetch with
      | Except.error e => Except.error e
      | Except.ok calls =>
        let out := notifyLoop env.deliver 0 (newCalls state.seen_ids calls)
        Except.ok ⟨true, out, ⟨state.seen_ids ++ out.sent_call_ids, current_updated⟩, true⟩

/-- The state file content after a run: unchanged when the run aborted
with an exception or short-circuited, otherwise the state passed to
`save_state`. -/
def runPersisted (env : Env) (state : MState) : MState :=
  match check_and_notify env state with
  | Except.error _ => state
  | Except.ok out => if out.saved then out.finalState else state

/-- `main` (lines 191-203): exit code 1 when `check_and_notify` raises,
exit code 0 when it completes. -/
def mainExitCode (env : Env) (state : MState) : Nat :=
  match check_and_notify env state with
  | Except.error _ => 1
  | Except.ok _ => 0

/-! Concrete records, states and environments used by the theorems and
witnesses below. -/

/-- A record with identifier `A`, as fetched on a first run. -/
def c1Call : Call := ⟨some "A", none, none, none, none, none, none, false⟩

/-- First-run environment: fresh token, one fetched record, delivery
would succeed. -/
def c1Env : Env := ⟨Except.ok (some "t1"), Except.ok [c1Call], fun _ => true⟩

/-- The state loaded when no state file exists yet. -/
def c1State : MState := ⟨[], none⟩

/-- A new record with identifier `A`. -/
def c2Call : Call := ⟨some "A", none, none, none, none, none, none, false⟩

/-- A non-bootstrap persisted state with token `t0`. -/
def c2State : MState := ⟨["X"], some "t0"⟩

/-- A run seeing new token `t1` in which delivery of the new call fails. -/
def c2EnvFail : Env := ⟨Except.ok (some "t1"), Except.ok [c2Call], fun _ => false⟩

/-- The immediately next run: the dataset token is still `t1` and
delivery would now succeed. -/
def c2EnvNext : Env := ⟨Except.ok (some "t1"), Except.ok [c2Call], fun _ => true⟩

/-- An environment whose current token matches `c3State`. -/
def c3Env : Env := ⟨Except.ok (some "t"), Except.ok [], fun _ => true⟩

/-- A non-empty persisted state with token `t`. -/
def c3State : MState := ⟨["A"], some "t"⟩

def c4a : Call := ⟨some "A1", none, none, none, none, none, none, false⟩

def c4b : Call := ⟨some "B2", none, none, none, none, none, none, false⟩

def c4c : Call := ⟨some "C3", none, none, none, none, none, none, false⟩

def c4State : MState := ⟨["S"], some "t0"⟩

/-- A run with three new calls in which only the first delivery
succeeds. -/
def c4Env : Env := ⟨Except.ok (some "t1"), Except.ok [c4a, c4b, c4c], fun i => i == 0⟩

/-- A delivery endpoint that answers HTTP 429 to every attempt. -/
def allRateLimited : Nat → SendOutcome := fun _ => SendOutcome.rateLimited

/-- A sensitive record carrying location and neighborhood values. -/
def c6Call : Call :=
  ⟨some "I6", none, none, some "HOMELESS COMPLAINT", some "MARKET ST", some "Tenderloin",
   some "Police", true⟩

/-- The example record of the specification. -/
def exampleCall : Call :=
  ⟨none, none, some "2026-02-04T16:58:12.000", some "SIT/LIE ENFORCEMENT",
   some "CASTRO ST \\ STATES ST", some "Castro/Upper Market", some "Police", false⟩

/-- A record with every optional field absent. -/
def c7MissingCall : Call := ⟨none, none, none, none, none, none, none, false⟩

/-- A record whose timestamp does not parse. -/
def c7BadTimeCall : Call := ⟨none, none, some "not-a-date", none, none, none, none, false⟩

/-- An environment whose metadata query raises. -/
def c8Env : Env := ⟨Except.error (), Except.ok [], fun _ => true⟩

def c8State : MState := ⟨["W"], some "w0"⟩

def c9Env : Env := ⟨Except.ok (some "u"), Except.ok [], fun _ => true⟩

def c9State : MState := ⟨["K"], some "u"⟩

/-- A record with neither a primary id nor a fallback cad_number. -/
def c10Call : Call := ⟨none, none, none, none, none, none, none, false⟩

/-! Helper lemmas shared by the claim theorems. -/

/-- The notifier makes at most one attempt per remaining loop index. -/
lemma send_loop_attempts_le (o : Nat → SendOutcome) :
    ∀ (l : List Nat) (b : Nat), (send_loop o b l).attempts ≤ l.length := by
  intro l
  induction l with
  | nil => intro b; simp [send_loop]
  | cons a rest ih =>
    intro b
    cases rest with
    | nil => cases h : o a <;> simp [send_loop, h]
    | cons r rs =>
      cases h : o a with
      | ok => simp [send_loop, h]
      | otherError => simp [send_loop, h]
      | rateLimited =>
        have hh := ih (min (b * 2) 64)
        simp only [send_loop, h, List.length_cons] at hh ⊢
        omega

/-- The sleeps performed are an initial segment of the doubling-capped
chain of backoff values. -/
lemma send_loop_sleeps_take (o : Nat → SendOutcome) :
    ∀ (l : List Nat) (b : Nat), ∃ n, (send_loop o b l).sleeps = List.take n (sleepChain b l) := by
  intro l
  induction l with
  | nil => intro b; exact ⟨0, by simp [send_loop]⟩
  | cons a rest ih =>
    intro b
    cases rest with
    | nil => exact ⟨0, by cases h : o a <;> simp [send_loop, h]⟩
    | cons r rs =>
      cases h : o a with
      | ok => exact ⟨0, by simp [send_loop, h]⟩
      | otherError => exact ⟨0, by simp [send_loop, h]⟩
      | rateLimited =>
        obtain ⟨n, hn⟩ := ih (min (b * 2) 64)
        exact ⟨n + 1, by simp [send_loop, h, sleepChain, hn]⟩

/-- Every call recorded as successfully delivered was among the new
calls handed to the loop. -/
lemma notifyLoop_succeeded_sub (d : Nat → Bool) :
    ∀ (l : List Call) (i : Nat) (c : Call), c ∈ (notifyLoop d i l).succeeded → c ∈ l := by
  intro l
  induction l with
  | nil => intro i c h; simp [notifyLoop] at h
  | cons a rest ih =>
    intro i c h
    by_cases hd : d i
    · simp only [notifyLoop, hd, if_true] at h
      rcases List.mem_cons.mp h with h1 | h2
      · exact h1 ▸ List.mem_cons_self a rest
      · exact List.mem_cons_of_mem a (ih (i + 1) c h2)
    · simp [notifyLoop, hd] at h

/-- Every identifier collected in `sent_call_ids` is non-empty and is
the identity of a call whose delivery was confirmed. -/
lemma notifyLoop_sent_sound (d : Nat → Bool) :
    ∀ (l : List Call) (i : Nat) (x : String),
      x ∈ (notifyLoop d i l).sent_call_ids →
      x ≠ "" ∧ ∃ c, c ∈ (notifyLoop d i l).succeeded ∧ callId c = some x := by
  intro l
  induction l with
  | nil => intro i x h; simp [notifyLoop] at h
  | cons a rest ih =>
    intro i x h
    by_cases hd : d i
    · simp only [notifyLoop, hd, if_true, List.mem_append] at h
      rcases h with h1 | h2
      · unfold truthyId at h1
        rcases hc : callId a with _ | s
        · rw [hc] at h1; simp at h1
        · rw [hc] at h1
          by_cases hs : s = ""
          · simp [hs] at h1
          · simp [hs] at h1
            subst h1
            exact ⟨hs, a, by simp [notifyLoop, hd], hc⟩
      · obtain ⟨hne, c, hcs, hcid⟩ := ih (i + 1) x h2
        refine ⟨hne, c, ?_, hcid⟩
        simp only [notifyLoop, hd, if_true, List.mem_cons]
        right; exact hcs
    · simp [notifyLoop, hd] at h

/-- A completed run either short-circuited (returning the input state
unchanged and unsaved) or fetched, ran the notify loop, and saved the
input seen-set extended by the loop's `sent_call_ids`. -/
lemma check_ok_cases (env : Env) (state : MState) (out : RunOut)
    (h : check_and_notify env state = Except.ok out) :
    out = ⟨false, ⟨[], 0, []⟩, state, false⟩ ∨
    (∃ calls, env.fetch = Except.ok calls ∧
       out.loop = notifyLoop env.deliver 0 (newCalls state.seen_ids calls) ∧
       out.saved = true ∧ out.fetched = true ∧
       out.finalState.seen_ids = state.seen_ids ++ out.loop.sent_call_ids) := by
  unfold check_and_notify at h
  cases hm : env.metadata with
  | error e => rw [hm] at h; simp at h
  | ok cu =>
    rw [hm] at h
    simp only at h
    by_cases hc : cu = state.rows_updated_at ∧ state.seen_ids ≠ []
    · rw [if_pos hc] at h
      left
      cases h
      rfl
    · rw [if_neg hc] at h
      cases hf : env.fetch with
      | error e => rw [hf] at h; simp at h
      | ok calls =>
        rw [hf] at h
        simp only [Except.ok.injEq] at h
        right
        refine ⟨calls, rfl, ?_, ?_, ?_, ?_⟩ <;> rw [← h]

/-- The persisted state after a run is either unchanged, or the saved
state of a completed fetch-and-notify run. -/
lemma runPersisted_cases (env : Env) (state : MState) :
    runPersisted env state = state ∨
    ∃ out calls, check_and_notify env state = Except.ok out ∧
      env.fetch = Except.ok calls ∧
      runPersisted env state = out.finalState ∧
      out.loop = notifyLoop env.deliver 0 (newCalls state.seen_ids calls) ∧
      out.finalState.seen_ids = state.seen_ids ++ out.loop.sent_call_ids := by
  unfold runPersisted
  cases h : check_and_notify env state with
  | error e => left; rfl
  | ok out =>
    rcases check_ok_cases env state out h with h1 | ⟨calls, hf, hl, hsv, _, hseen⟩
    · left; subst h1; rfl
    · right
      exact ⟨out, calls, rfl, hf, by simp [hsv], hl, hseen⟩

/-- Two strings whose underlying character lists start with different
characters are different. -/
lemma head_char_ne {s t : String} {a b : Char} (hs : ∃ l, s.data = a :: l)
    (ht : ∃ m, t.data = b :: m) (hab : a ≠ b) : s ≠ t := by
  intro h
  obtain ⟨l, hl⟩ := hs
  obtain ⟨m, hm⟩ := ht
  rw [h, hm] at hl
  exact hab (List.cons.injEq .. ▸ hl).1.symm

/-- C1: the claim states that on a first run (empty persisted seen-set)
with a successful fetch, zero notifications are sent and the persisted
seen-set afterwards equals exactly the identifiers of the fetched
records.  Evaluating the code on a first run fetching the single record
`c1Call` (identifier `A`): no notification is attempted and the state
is saved, but the persisted seen-set is empty — the fetched identifiers
are never recorded, contradicting the claim (and the program's own
`recording N existing calls` log line). -/
theorem C1_bootstrap_records_nothing :
    check_and_notify c1Env c1State =
      Except.ok ⟨true, ⟨[], 0, []⟩, ⟨[], some "t1"⟩, true⟩ ∧
    (runPersisted c1Env c1State).seen_ids = [] ∧
    callId c1Call = some "A" := ⟨rfl, rfl, rfl⟩

/-- C2: the claim states that calls left undelivered by a mid-loop
failure are recomputed as new and re-attempted on the immediately next
run even if the dataset token is unchanged.  Evaluating the code: a run
from token `t0` to `t1` whose only new call (identifier `A`) fails
delivery still persists token `t1`, so the next run with the unchanged
token `t1` short-circuits — it performs no fetch and no delivery, and
`A` is not retried, contradicting the claim. -/
theorem C2_no_retry_when_token_unchanged :
    check_and_notify c2EnvFail c2State =
      Except.ok ⟨true, ⟨[], 1, []⟩, ⟨["X"], some "t1"⟩, true⟩ ∧
    runPersisted c2EnvFail c2State = ⟨["X"], some "t1"⟩ ∧
    "A" ∉ (runPersisted c2EnvFail c2State).seen_ids ∧
    check_and_notify c2EnvNext (runPersisted c2EnvFail c2State) =
      Except.ok ⟨false, ⟨[], 0, []⟩, ⟨["X"], some "t1"⟩, false⟩ :=
  ⟨rfl, rfl, by decide, rfl⟩

/-- C3: when the current token equals the persisted token and the
persisted seen-set is non-empty, `check_and_notify` terminates without
fetching, without notifying and without modifying the persisted state;
consequently a second invocation right after any completed run, with
the token unchanged and a non-empty seen-set, performs zero fetches and
zero notifications. -/
theorem C3_short_circuit_idempotent :
    (∀ (env : Env) (state : MState),
        env.metadata = Except.ok state.rows_updated_at → state.seen_ids ≠ [] →
        check_and_notify env state = Except.ok ⟨false, ⟨[], 0, []⟩, state, false⟩ ∧
        runPersisted env state = state) ∧
    (∀ (env1 env2 : Env) (state : MState) (out : RunOut),
        check_and_notify env1 state = Except.ok out →
        env2.metadata = Except.ok out.finalState.rows_updated_at →
        out.finalState.seen_ids ≠ [] →
        check_and_notify env2 out.finalState =
          Except.ok ⟨false, ⟨[], 0, []⟩, out.finalState, false⟩ ∧
        runPersisted env2 out.finalState = out.finalState) := by
  have base : ∀ (env : Env) (state : MState),
      env.metadata = Except.ok state.rows_updated_at → state.seen_ids ≠ [] →
      check_and_notify env state = Except.ok ⟨false, ⟨[], 0, []⟩, state, false⟩ := by
    intro env state hm hs
    unfold check_and_notify
    rw [hm]
    simp only
    rw [if_pos (show True ∧ state.seen_ids ≠ [] from ⟨trivial, hs⟩)]
  have basePersist : ∀ (env : Env) (state : MState),
      check_and_notify env state = Except.ok ⟨false, ⟨[], 0, []⟩, state, false⟩ →
      runPersisted env state = state := by
    intro env state hc
    unfold runPersisted
    rw [hc]
    rfl
  exact ⟨fun env state hm hs =>
          ⟨base env state hm hs, basePersist env state (base env state hm hs)⟩,
         fun env1 env2 state out h1 hm hs =>
          ⟨base env2 out.finalState hm hs,
           basePersist env2 out.finalState (base env2 out.finalState hm hs)⟩⟩

/-- Witness for C3 at a concrete matching-token, non-empty state. -/
theorem C3_short_circuit_idempotent_witness :
    check_and_notify c3Env c3State = Except.ok ⟨false, ⟨[], 0, []⟩, c3State, false⟩ ∧
    runPersisted c3Env c3State = c3State :=
  C3_short_circuit_idempotent.1 c3Env c3State rfl (by decide)

/-- C4: in a run with exactly three new calls with stable identifiers
where the first delivery succeeds and the second fails, processing
stops without attempting the third (two attempts in total), exactly the
first identifier is appended to the seen-set, and the identifiers of
calls two and three are absent from the persisted seen-set. -/
theorem C4_stop_on_failure
    (env : Env) (state : MState) (t : Option String) (a b c : Call) (ia ib ic : String)
    (ha : callId a = some ia) (hb : callId b = some ib) (hc : callId c = some ic)
    (hna : ia ≠ "")
    (hm : env.metadata = Except.ok t) (ht : t ≠ state.rows_updated_at)
    (hf : env.fetch = Except.ok [a, b, c])
    (hs0 : state.seen_ids ≠ [])
    (hsa : ia ∉ state.seen_ids) (hsb : ib ∉ state.seen_ids) (hsc : ic ∉ state.seen_ids)
    (hba : ib ≠ ia) (hca : ic ≠ ia)
    (hd0 : env.deliver 0 = true) (hd1 : env.deliver 1 = false) :
    check_and_notify env state =
      Except.ok ⟨true, ⟨[ia], 2, [a]⟩, ⟨state.seen_ids ++ [ia], t⟩, true⟩ ∧
    (runPersisted env state).seen_ids = state.seen_ids ++ [ia] ∧
    ib ∉ (runPersisted env state).seen_ids ∧ ic ∉ (runPersisted env state).seen_ids := by
  have hnew : newCalls state.seen_ids [a, b, c] = [a, b, c] := by
    unfold newCalls
    rw [if_neg hs0]
    simp [List.filter, idInSeen, ha, hb, hc, hsa, hsb, hsc]
  have hloop : notifyLoop env.deliver 0 [a, b, c] = ⟨[ia], 2, [a]⟩ := by
    simp [notifyLoop, hd0, hd1, truthyId, ha, hna]
  have hmain : check_and_notify env state =
      Except.ok ⟨true, ⟨[ia], 2, [a]⟩, ⟨state.seen_ids ++ [ia], t⟩, true⟩ := by
    unfold check_and_notify
    rw [hm]
    simp only
    rw [if_neg (fun hh => ht hh.1), hf]
    simp only [hnew, hloop]
  have hrun : runPersisted env state = ⟨state.seen_ids ++ [ia], t⟩ := by
    unfold runPersisted
    rw [hmain]
    rfl
  refine ⟨hmain, by rw [hrun], ?_, ?_⟩
  · rw [hrun]; simp [List.mem_append, hsb, hba]
  · rw [hrun]; simp [List.mem_append, hsc, hca]

/-- Witness for C4 at a concrete three-call run whose second delivery
fails. -/
theorem C4_stop_on_failure_witness :
    check_and_notify c4Env c4State =
      Except.ok ⟨true, ⟨["A1"], 2, [c4a]⟩, ⟨["S", "A1"], some "t1"⟩, true⟩ ∧
    "B2" ∉ (runPersisted c4Env c4State).seen_ids ∧
    "C3" ∉ (runPersisted c4Env c4State).seen_ids := by
  have h := C4_stop_on_failure c4Env c4State (some "t1") c4a c4b c4c "A1" "B2" "C3"
    rfl rfl rfl (by decide) rfl (by decide) rfl (by decide)
    (by decide) (by decide) (by decide) (by decide) (by decide) rfl rfl
  exact ⟨h.1, h.2.2.1, h.2.2.2⟩

/-- C5: the notifier returns true as soon as an attempt yields 2xx,
returns false immediately (no retry) on any non-429 error, retries on
429 with sleeps that form an initial segment of the doubling chain
2, 4, 8, 16 seconds (each next backoff being the double capped at 64),
makes at most 5 attempts in total, and returns false when all retries
are exhausted. -/
theorem C5_notifier_backoff (outcome : Nat → SendOutcome) :
    (send_notification_with_backoff outcome).attempts ≤ 5 ∧
    (∃ n, (send_notification_with_backoff outcome).sleeps = List.take n [2, 4, 8, 16]) ∧
    (∀ k, k < 5 → (∀ i, i < k → outcome i = SendOutcome.rateLimited) →
        outcome k = SendOutcome.ok →
        send_notification_with_backoff outcome = ⟨true, k + 1, List.take k [2, 4, 8, 16]⟩) ∧
    (∀ k, k < 5 → (∀ i, i < k → outcome i = SendOutcome.rateLimited) →
        outcome k = SendOutcome.otherError →
        send_notification_with_backoff outcome = ⟨false, k + 1, List.take k [2, 4, 8, 16]⟩) ∧
    ((∀ i, i < 5 → outcome i = SendOutcome.rateLimited) →
        send_notification_with_backoff outcome = ⟨false, 5, [2, 4, 8, 16]⟩) := by
  have hrange : List.range 5 = [0, 1, 2, 3, 4] := rfl
  have hchain : sleepChain 2 [0, 1, 2, 3, 4] = [2, 4, 8, 16] := rfl
  have m1 : min (2 * 2) 64 = 4 := rfl
  have m2 : min (4 * 2) 64 = 8 := rfl
  have m3 : min (8 * 2) 64 = 16 := rfl
  have m4 : min (16 * 2) 64 = 32 := rfl
  refine ⟨?_, ?_, ?_, ?_, ?_⟩
  · have h := send_loop_attempts_le outcome (List.range 5) 2
    simpa [send_notification_with_backoff] using h
  · obtain ⟨n, hn⟩ := send_loop_sleeps_take outcome (List.range 5) 2
    rw [hrange, hchain] at hn
    exact ⟨n, by simpa [send_notification_with_backoff, hrange] using hn⟩
  · intro k hk hpre hko
    unfold send_notification_with_backoff
    rw [hrange]
    interval_cases k
    · simp [send_loop, hko]
    · have h0 := hpre 0 (by omega)
      simp [send_loop, h0, hko, m1]
    · have h0 := hpre 0 (by omega)
      have h1 := hpre 1 (by omega)
      simp [send_loop, h0, h1, hko, m1, m2]
    · have h0 := hpre 0 (by omega)
      have h1 := hpre 1 (by omega)
      have h2 := hpre 2 (by omega)
      simp [send_loop, h0, h1, h2, hko, m1, m2, m3]
    · have h0 := hpre 0 (by omega)
      have h1 := hpre 1 (by omega)
      have h2 := hpre 2 (by omega)
      have h3 := hpre 3 (by omega)
      simp [send_loop, h0, h1, h2, h3, hko, m1, m2, m3, m4]
  · intro k hk hpre hko
    unfold send_notification_with_backoff
    rw [hrange]
    interval_cases k
    · simp [send_loop, hko]
    · have h0 := hpre 0 (by omega)
      simp [send_loop, h0, hko, m1]
    · have h0 := hpre 0 (by omega)
      have h1 := hpre 1 (by omega)
      simp [send_loop, h0, h1, hko, m1, m2]
    · have h0 := hpre 0 (by omega)
      have h1 := hpre 1 (by omega)
      have h2 := hpre 2 (by omega)
      simp [send_loop, h0, h1, h2, hko, m1, m2, m3]
    · have h0 := hpre 0 (by omega)
      have h1 := hpre 1 (by omega)
      have h2 := hpre 2 (by omega)
      have h3 := hpre 3 (by omega)
      simp [send_loop, h0, h1, h2, h3, hko, m1, m2, m3, m4]
  · intro hall
    have h0 := hall 0 (by omega)
    have h1 := hall 1 (by omega)
    have h2 := hall 2 (by omega)
    have h3 := hall 3 (by omega)
    have h4 := hall 4 (by omega)
    unfold send_notification_with_backoff
    rw [hrange]
    simp [send_loop, h0, h1, h2, h3, h4, m1, m2, m3, m4]

/-- Witness for C5: with every attempt rate-limited, the notifier makes
5 attempts, sleeps 2, 4, 8 and 16 seconds, and returns false. -/
theorem C5_notifier_backoff_witness :
    send_notification_with_backoff allRateLimited = ⟨false, 5, [2, 4, 8, 16]⟩ :=
  (C5_notifier_backoff allRateLimited).2.2.2.2 (fun _ _ => rfl)

/-- C6: for every record whose sensitivity flag is true, the formatted
lines are exactly Time, Type, the fixed redaction marker in place of
the location, and Agency — and no Neighborhood line occurs, whatever
the record's location and neighborhood values are. -/
theorem C6_sensitive_redaction (c : Call) (hs : c.sensitive_call = true) :
    format_lines c =
      ["Time: " ++ received_formatted c,
       "Type: " ++ pyOr c.call_type_original_desc "Unknown",
       "Location: [Sensitive - location suppressed]",
       "Agency: " ++ pyOr c.agency "Unknown agency"] ∧
    ∀ s : String, ("Neighborhood: " ++ s) ∉ format_lines c := by
  have h1 : format_lines c =
      ["Time: " ++ received_formatted c,
       "Type: " ++ pyOr c.call_type_original_desc "Unknown",
       "Location: [Sensitive - location suppressed]",
       "Agency: " ++ pyOr c.agency "Unknown agency"] := by
    simp [format_lines, hs]
  refine ⟨h1, ?_⟩
  intro s hmem
  rw [h1] at hmem
  simp only [List.mem_cons, List.not_mem_nil, or_false] at hmem
  rcases hmem with h | h | h | h
  · exact head_char_ne ⟨_, rfl⟩ ⟨_, rfl⟩ (by decide) h
  · exact head_char_ne ⟨_, rfl⟩ ⟨_, rfl⟩ (by decide) h
  · exact head_char_ne ⟨_, rfl⟩ ⟨_, rfl⟩ (by decide) h
  · exact head_char_ne ⟨_, rfl⟩ ⟨_, rfl⟩ (by decide) h

/-- Witness for C6 at a concrete sensitive record with a location and a
neighborhood. -/
theorem C6_sensitive_redaction_witness :
    format_lines c6Call =
      ["Time: " ++ received_formatted c6Call,
       "Type: " ++ pyOr c6Call.call_type_original_desc "Unknown",
       "Location: [Sensitive - location suppressed]",
       "Agency: " ++ pyOr c6Call.agency "Unknown agency"] ∧
    "Neighborhood: Tenderloin" ∉ format_lines c6Call :=
  ⟨(C6_sensitive_redaction c6Call rfl).1,
   (C6_sensitive_redaction c6Call rfl).2 "Tenderloin"⟩

/-- C7: the formatter is a total function with the documented
fallbacks: the specification's example record formats to exactly the
five-line body; a trailing `Z` is treated as the `+00:00` offset form;
a missing timestamp yields `Unknown time`; an unparseable timestamp is
passed through unchanged; and missing type, location and agency fields
fall back to the fixed literals. -/
theorem C7_formatter_contract :
    format_call exampleCall =
      "Time: 2/4/2026 4:58 PM\nType: SIT/LIE ENFORCEMENT\nLocation: CASTRO ST \\ STATES ST\nNeighborhood: Castro/Upper Market\nAgency: Police" ∧
    fromisoformat (replaceZ "2026-02-04T16:58:12Z") = some ⟨2026, 2, 4, 16, 58, 12⟩ ∧
    (∀ c : Call, c.received_datetime = none → "Time: Unknown time" ∈ format_lines c) ∧
    (∀ (c : Call) (s : String), c.received_datetime = some s → s ≠ "" →
        fromisoformat (replaceZ s) = none → ("Time: " ++ s) ∈ format_lines c) ∧
    (∀ c : Call, c.call_type_original_desc = none → "Type: Unknown" ∈ format_lines c) ∧
    (∀ c : Call, c.intersection_name = none → c.sensitive_call = false →
        "Location: Unknown location" ∈ format_lines c) ∧
    (∀ c : Call, c.agency = none → "Agency: Unknown agency" ∈ format_lines c) := by
  refine ⟨by decide, by decide, ?_, ?_, ?_, ?_, ?_⟩
  · intro c h
    have e : "Time: " ++ "Unknown time" = "Time: Unknown time" := rfl
    simp [format_lines, received_formatted, h, e]
  · intro c s hrecv hne hparse
    simp [format_lines, received_formatted, hrecv, hne, hparse]
  · intro c h
    have e : "Type: " ++ "Unknown" = "Type: Unknown" := rfl
    simp [format_lines, pyOr, h, e]
  · intro c h hsens
    have e : "Location: " ++ "Unknown location" = "Location: Unknown location" := rfl
    simp [format_lines, pyOr, h, hsens, e]
  · intro c h
    have e : "Agency: " ++ "Unknown agency" = "Agency: Unknown agency" := rfl
    simp [format_lines, pyOr, h, e]

/-- Witness for C7 at a record with all fields missing and a record
with an unparseable timestamp. -/
theorem C7_formatter_contract_witness :
    "Time: Unknown time" ∈ format_lines c7MissingCall ∧
    ("Time: " ++ "not-a-date") ∈ format_lines c7BadTimeCall ∧
    "Type: Unknown" ∈ format_lines c7MissingCall ∧
    "Location: Unknown location" ∈ format_lines c7MissingCall ∧
    "Agency: Unknown agency" ∈ format_lines c7MissingCall :=
  ⟨C7_formatter_contract.2.2.1 c7MissingCall rfl,
   C7_formatter_contract.2.2.2.1 c7BadTimeCall "not-a-date" rfl (by decide) rfl,
   C7_formatter_contract.2.2.2.2.1 c7MissingCall rfl,
   C7_formatter_contract.2.2.2.2.2.1 c7MissingCall rfl rfl,
   C7_formatter_contract.2.2.2.2.2.2 c7MissingCall rfl⟩

/-- C8: a failing metadata query or record fetch propagates, aborting
the run with no state write and exit code 1; a completed run exits with
code 0. -/
theorem C8_error_abort_exit_codes :
    (∀ (env : Env) (state : MState) (e : Unit), env.metadata = Except.error e →
        check_and_notify env state = Except.error e ∧ runPersisted env state = state ∧
        mainExitCode env state = 1) ∧
    (∀ (env : Env) (state : MState) (t : Option String) (e : Unit),
        env.metadata = Except.ok t →
        ¬(t = state.rows_updated_at ∧ state.seen_ids ≠ []) →
        env.fetch = Except.error e →
        check_and_notify env state = Except.error e ∧ runPersisted env state = state ∧
        mainExitCode env state = 1) ∧
    (∀ (env : Env) (state : MState) (out : RunOut),
        check_and_notify env state = Except.ok out → mainExitCode env state = 0) := by
  have hmeta : ∀ (env : Env) (state : MState) (e : Unit), env.metadata = Except.error e →
      check_and_notify env state = Except.error e := by
    intro env state e hm
    unfold check_and_notify
    rw [hm]
  have hfetch : ∀ (env : Env) (state : MState) (t : Option String) (e : Unit),
      env.metadata = Except.ok t →
      ¬(t = state.rows_updated_at ∧ state.seen_ids ≠ []) →
      env.fetch = Except.error e →
      check_and_notify env state = Except.error e := by
    intro env state t e hm hcond hf
    unfold check_and_notify
    rw [hm]
    simp only
    rw [if_neg hcond, hf]
  have hpers : ∀ (env : Env) (state : MState) (e : Unit),
      check_and_notify env state = Except.error e → runPersisted env state = state := by
    intro env state e hc
    unfold runPersisted
    rw [hc]
  have hexit1 : ∀ (env : Env) (state : MState) (e : Unit),
      check_and_notify env state = Except.error e → mainExitCode env state = 1 := by
    intro env state e hc
    unfold mainExitCode
    rw [hc]
  refine ⟨fun env state e hm =>
            ⟨hmeta env state e hm, hpers env state e (hmeta env state e hm),
             hexit1 env state e (hmeta env state e hm)⟩,
          fun env state t e hm hcond hf =>
            ⟨hfetch env state t e hm hcond hf, hpers env state e (hfetch env state t e hm hcond hf),
             hexit1 env state e (hfetch env state t e hm hcond hf)⟩,
          fun env state out hc => ?_⟩
  unfold mainExitCode
  rw [hc]

/-- Witness for C8 at a run whose metadata query raises. -/
theorem C8_error_abort_exit_codes_witness :
    check_and_notify c8Env c8State = Except.error () ∧
    runPersisted c8Env c8State = c8State ∧
    mainExitCode c8Env c8State = 1 :=
  C8_error_abort_exit_codes.1 c8Env c8State () rfl

/-- C9: for every run, the persisted seen-set afterwards contains the
prior seen-set, and every identifier it gains belongs to a call whose
delivery was confirmed during that run. -/
theorem C9_seen_monotonic (env : Env) (state : MState) :
    (∀ x, x ∈ state.seen_ids → x ∈ (runPersisted env state).seen_ids) ∧
    (∀ x, x ∈ (runPersisted env state).seen_ids →
        x ∈ state.seen_ids ∨
        ∃ out c, check_and_notify env state = Except.ok out ∧
          c ∈ out.loop.succeeded ∧ callId c = some x) := by
  rcases runPersisted_cases env state with h | ⟨out, calls, hc, hf, hrun, hloop, hseen⟩
  · rw [h]
    exact ⟨fun x hx => hx, fun x hx => Or.inl hx⟩
  · constructor
    · intro x hx
      rw [hrun, hseen]
      exact List.mem_append_left _ hx
    · intro x hx
      rw [hrun, hseen] at hx
      rcases List.mem_append.mp hx with h1 | h2
      · exact Or.inl h1
      · right
        have h3 : x ∈ (notifyLoop env.deliver 0 (newCalls state.seen_ids calls)).sent_call_ids := by
          rw [← hloop]; exact h2
        obtain ⟨hne, c, hcs, hcid⟩ := notifyLoop_sent_sound env.deliver _ 0 x h3
        exact ⟨out, c, hc, by rw [hloop]; exact hcs, hcid⟩

/-- Witness for C9: a prior identifier is still present after a run. -/
theorem C9_seen_monotonic_witness : "K" ∈ (runPersisted c9Env c9State).seen_ids :=
  (C9_seen_monotonic c9Env c9State).1 "K" (by decide)

/-- C10: a record with neither a primary id nor a fallback cad_number
is always classified as new when the new-call computation runs; every
identifier ever added to the seen-set is the non-empty identity of some
fetched call (so an identity-less record contributes nothing even when
its delivery succeeds); and the persisted seen-set never acquires an
empty identifier. -/
theorem C10_identityless_records :
    (∀ c : Call, callId c = none → ∀ (seen : List String) (calls : List Call),
        seen ≠ [] → c ∈ calls → c ∈ newCalls seen calls) ∧
    (∀ (d : Nat → Bool) (i : Nat) (l : List Call) (x : String),
        x ∈ (notifyLoop d i l).sent_call_ids →
        x ≠ "" ∧ ∃ c, c ∈ l ∧ callId c = some x) ∧
    (∀ (env : Env) (state : MState), (∀ x, x ∈ state.seen_ids → x ≠ "") →
        ∀ x, x ∈ (runPersisted env state).seen_ids → x ≠ "") := by
  refine ⟨?_, ?_, ?_⟩
  · intro c hcid seen calls hseen hin
    unfold newCalls
    rw [if_neg hseen]
    rw [List.mem_filter]
    exact ⟨hin, by simp [idInSeen, hcid]⟩
  · intro d i l x hx
    obtain ⟨hne, c, hcs, hcid⟩ := notifyLoop_sent_sound d l i x hx
    exact ⟨hne, c, notifyLoop_succeeded_sub d l i c hcs, hcid⟩
  · intro env state hinv x hx
    rcases runPersisted_cases env state with h | ⟨out, calls, hc, hf, hrun, hloop, hseen⟩
    · rw [h] at hx
      exact hinv x hx
    · rw [hrun, hseen] at hx
      rcases List.mem_append.mp hx with h1 | h2
      · exact hinv x h1
      · have h3 : x ∈ (notifyLoop env.deliver 0 (newCalls state.seen_ids calls)).sent_call_ids := by
          rw [← hloop]; exact h2
        exact (notifyLoop_sent_sound env.deliver _ 0 x h3).1

/-- Witness for C10: an identity-less record is classified as new. -/
theorem C10_identityless_records_witness :
    c10Call ∈ newCalls ["S"] [c10Call] :=
  C10_identityless_records.1 c10Call rfl ["S"] [c10Call] (by decide) (by simp)

end Monitor
